import Mathlib

/-!
Shallow embedding of the TatraPay+ Next.js integration
(`src/lib/tatrapay.ts` and `src/app/api/payment/callback/route.ts`).

JavaScript strings are modelled as Lean `String`s (the inputs of interest
are BMP code points, where one UTF-16 code unit is one `Char`), JavaScript
numbers as `ℚ` (all amounts in play are exact decimal fractions),
`Date.now()` instants as `ℤ` milliseconds, and `undefined`/`null` as
`Option`.  Network I/O is passed in as data: each operation takes the
outcome of its outbound HTTP call as an argument and returns what the
TypeScript function would return (or the message of the `Error` it would
throw, via `Except String`).
-/

namespace TatraPay

/-- JavaScript `\s` (also the set trimmed by `String.prototype.trim`):
tab, LF, VT, FF, CR, space, NBSP, Ogham space, the U+2000–U+200A range,
LS, PS, NNBSP, MMSP, ideographic space and the BOM. -/
def jsWhitespace (c : Char) : Bool :=
  let n := c.toNat
  decide (n = 0x09 ∨ n = 0x0A ∨ n = 0x0B ∨ n = 0x0C ∨ n = 0x0D ∨ n = 0x20 ∨
    n = 0xA0 ∨ n = 0x1680 ∨ (0x2000 ≤ n ∧ n ≤ 0x200A) ∨ n = 0x2028 ∨
    n = 0x2029 ∨ n = 0x202F ∨ n = 0x205F ∨ n = 0x3000 ∨ n = 0xFEFF)

/-- Source `s.replace(/\s/g, '')`: drop every JavaScript whitespace character. -/
def stripJsWhitespace (s : String) : String :=
  ⟨s.data.filter (fun c => !jsWhitespace c)⟩

/-- Source `s.trim()`: drop JavaScript whitespace from both ends. -/
def jsTrim (s : String) : String :=
  ⟨((s.data.dropWhile jsWhitespace).reverse.dropWhile jsWhitespace).reverse⟩

/-- Source `s.substring(0, n)`: the first `n` code units. -/
def jsTake (s : String) (n : Nat) : String :=
  ⟨s.data.take n⟩

/-- JavaScript truthiness of a possibly-absent string
(`undefined`, `null` and `''` are falsy). -/
def jsTruthy : Option String → Bool
  | none => false
  | some s => s != ""

/-- JavaScript `a || b` for a possibly-absent string `a`. -/
def jsOrElse (a : Option String) (b : String) : String :=
  match a with
  | some s => if s = "" then b else s
  | none => b

/-! ### `URLSearchParams` serialization
(`application/x-www-form-urlencoded`, as used by `redirectToResult`). -/

/-- UTF-8 bytes of a code point, as naturals. -/
def utf8Bytes (c : Char) : List Nat :=
  let n := c.toNat
  if n < 0x80 then [n]
  else if n < 0x800 then [0xC0 + n / 0x40, 0x80 + n % 0x40]
  else if n < 0x10000 then
    [0xE0 + n / 0x1000, 0x80 + (n / 0x40) % 0x40, 0x80 + n % 0x40]
  else
    [0xF0 + n / 0x40000, 0x80 + (n / 0x1000) % 0x40,
      0x80 + (n / 0x40) % 0x40, 0x80 + n % 0x40]

/-- Uppercase hex digit. -/
def hexUpper (n : Nat) : Char :=
  "0123456789ABCDEF".data.getD n '0'

/-- Percent `%XX` escape of one byte. -/
def percentEncodeByte (b : Nat) : String :=
  ⟨['%', hexUpper (b / 16), hexUpper (b % 16)]⟩

/-- Characters the urlencoded serializer leaves unescaped. -/
def formSafeChar (c : Char) : Bool :=
  c.isAlphanum || c == '*' || c == '-' || c == '.' || c == '_'

/-- Encode one character as the urlencoded serializer does. -/
def formEncodeChar (c : Char) : String :=
  if formSafeChar c then String.singleton c
  else if c = ' ' then "+"
  else String.join ((utf8Bytes c).map percentEncodeByte)

/-- Encoding of a `URLSearchParams` value/key. -/
def formEncode (s : String) : String :=
  String.join (s.data.map formEncodeChar)

/-- One `key=value` pair of `URLSearchParams.toString()`. -/
def serializeOne (p : String × String) : String :=
  formEncode p.1 ++ "=" ++ formEncode p.2

/-- Serialization `URLSearchParams.toString()`: `&`-joined encoded pairs, in insertion
order. -/
def serializeParams : List (String × String) → String
  | [] => ""
  | [p] => serializeOne p
  | p :: ps => serializeOne p ++ "&" ++ serializeParams ps

/-! ### Status helpers (`src/lib/tatrapay.ts`)

The TypeScript type `TatraPayStatus` is a closed union of string
literals, but runtime values come from `response.status as TatraPayStatus`
casts, so the helpers are embedded over arbitrary strings exactly as the
JavaScript executes them. -/

def successCodes : List String :=
  ["ACCC", "ACSC", "ACSP", "ACCP", "ACTC", "ACWC", "ACWP", "ACFC"]

def failedCodes : List String :=
  ["RJCT", "CANC"]

def pendingCodes : List String :=
  ["RCVD", "PDNG", "PATC", "PART"]

/-- Function `isPaymentSuccessful` from `src/lib/tatrapay.ts`. -/
def isPaymentSuccessful (status : String) : Bool :=
  successCodes.contains status

/-- Function `isPaymentFailed` from `src/lib/tatrapay.ts`. -/
def isPaymentFailed (status : String) : Bool :=
  failedCodes.contains status

/-- Function `isPaymentPending` from `src/lib/tatrapay.ts`. -/
def isPaymentPending (status : String) : Bool :=
  pendingCodes.contains status

/-- The codomain of `mapToInternalStatus`. -/
inductive InternalStatus where
  | pending
  | completed
  | failed
deriving DecidableEq, Repr

/-- Function `mapToInternalStatus` from `src/lib/tatrapay.ts`. -/
def mapToInternalStatus (status : String) : InternalStatus :=
  if isPaymentSuccessful status then .completed
  else if isPaymentFailed status then .failed
  else .pending

/-! ### Token cache (`getAccessToken`) -/

/-- Fields of the token endpoint's JSON body. -/
structure TokenData where
  access_token : String
  token_type : String
  expires_in : Int
  scope : String
deriving DecidableEq, Repr

/-- The module-level `cachedToken` record (`TatraPayToken` in the source):
the token data spread together with the computed `expiresAt` instant. -/
structure TatraPayToken where
  access_token : String
  token_type : String
  expires_in : Int
  scope : String
  expiresAt : Int
deriving DecidableEq, Repr

/-- Outcome of the `fetch` against the token endpoint: either the parsed
JSON body, or a non-ok HTTP status together with the response text. -/
inductive TokenFetchOutcome where
  | ok (tokenData : TokenData)
  | httpError (status : Nat) (body : String)
deriving DecidableEq, Repr

/-- The refresh path of `getAccessToken` (everything after the cache
check): throws on a non-ok response, otherwise caches the token with
`expiresAt = Date.now() + expires_in * 1000` and returns `access_token`.
The third component counts token-endpoint network calls. -/
def refreshAccessToken (cachedToken : Option TatraPayToken) (nowAtStore : Int)
    (fetchOutcome : TokenFetchOutcome) :
    Except String String × Option TatraPayToken × Nat :=
  match fetchOutcome with
  | .httpError status _body =>
    (.error ("TatraPay authentication failed: " ++ toString status), cachedToken, 1)
  | .ok tokenData =>
    (.ok tokenData.access_token,
      some { access_token := tokenData.access_token,
             token_type := tokenData.token_type,
             expires_in := tokenData.expires_in,
             scope := tokenData.scope,
             expiresAt := nowAtStore + tokenData.expires_in * 1000 }, 1)

/-- Function `getAccessToken` from `src/lib/tatrapay.ts`, with the module-level
cache, the two `Date.now()` reads and the fetch outcome passed explicitly.
Returns (result, new cache, number of token-endpoint calls). -/
def getAccessToken (cachedToken : Option TatraPayToken)
    (nowAtCheck nowAtStore : Int) (fetchOutcome : TokenFetchOutcome) :
    Except String String × Option TatraPayToken × Nat :=
  match cachedToken with
  | some t =>
    if nowAtCheck < t.expiresAt - 60000 then (.ok t.access_token, some t, 0)
    else refreshAccessToken cachedToken nowAtStore fetchOutcome
  | none => refreshAccessToken cachedToken nowAtStore fetchOutcome

/-! ### `createPayment` (`src/lib/tatrapay.ts`) -/

/-- Type `TatraPayMethod`. -/
inductive TatraPayMethod where
  | CARD_PAY
  | BANK_TRANSFER
  | QR_PAY
  | PAY_LATER
deriving DecidableEq, Repr

/-- Type `TatraPayCustomer` (the address field plays no role in the embedded
operations). -/
structure TatraPayCustomer where
  firstName : String
  lastName : String
  email : String
  phone : Option String := none
deriving DecidableEq, Repr

/-- A monetary amount: value (request side: integer minor units) plus
currency code. -/
structure AmountWithCurrency where
  amount : ℚ
  currency : String
deriving DecidableEq, Repr

/-- Type `TatraPayCreatePaymentRequest`. -/
structure TatraPayCreatePaymentRequest where
  paymentMethod : TatraPayMethod
  amount : AmountWithCurrency
  merchantReference : String
  description : Option String := none
  customer : Option TatraPayCustomer := none
  returnUrl : String
  language : Option String := none
  customerIpAddress : String
deriving DecidableEq, Repr

/-- The `userData` block of the creation request body. -/
structure UserData where
  firstName : String
  lastName : String
  email : String
  phone : Option String
deriving DecidableEq, Repr

/-- The JSON body `createPayment` POSTs to `/v1/payments` (the local
`apiBody` object in the source; `bankTransfer` records whether the empty
marker object was attached). -/
structure ApiBody where
  amountValue : ℚ
  currency : String
  merchantReference : String
  language : String
  paymentDescription : Option String
  userData : Option UserData
  cardDetail : Option String
  bankTransfer : Bool
deriving DecidableEq, Repr

/-- The local `customerFullName` of `createPayment`:
`` `${firstName} ${lastName}`.trim().substring(0, 45) `` when a customer is
given, the literal `'Customer'` otherwise. -/
def customerFullName (customer : Option TatraPayCustomer) : String :=
  match customer with
  | some c => jsTake (jsTrim (c.firstName ++ " " ++ c.lastName)) 45
  | none => "Customer"

/-- The character class `[a-zA-Z0-9 .@_-]` kept by the card-holder
sanitizer. -/
def cardHolderAllowed (c : Char) : Bool :=
  c.isAlphanum || c == ' ' || c == '.' || c == '@' || c == '_' || c == '-'

/-- The local `sanitizedCardHolder`:
`customerFullName.replace(/[^a-zA-Z0-9 .@_-]/g, '').substring(0, 45) || 'Customer'`. -/
def sanitizeCardHolder (fullName : String) : String :=
  let stripped := jsTake ⟨fullName.data.filter cardHolderAllowed⟩ 45
  if stripped = "" then "Customer" else stripped

/-- The request body `createPayment` builds and transmits (the `apiBody`
variable of the source, including the method-specific structures). -/
def apiBody (request : TatraPayCreatePaymentRequest) : ApiBody :=
  { amountValue := request.amount.amount
    currency := request.amount.currency
    merchantReference := stripJsWhitespace request.merchantReference
    language := request.language.getD "sk"
    paymentDescription := request.description
    userData := request.customer.map (fun c =>
      { firstName := c.firstName, lastName := c.lastName, email := c.email,
        phone := c.phone })
    cardDetail :=
      if request.paymentMethod = .CARD_PAY then
        some (sanitizeCardHolder (customerFullName request.customer))
      else none
    bankTransfer := request.paymentMethod = .BANK_TRANSFER }

/-- One entry of `availablePaymentMethods` in the creation response. -/
structure AvailableMethod where
  isAvailable : Bool
  paymentMethod : String
  reasonCodeMethodAvailability : Option String := none
  reasonCodeMethodAvailabilityDescription : Option String := none
deriving DecidableEq, Repr

/-- Field `bankTransferData` of the creation response. -/
structure BankTransferData where
  iban : String
  bic : String
  variableSymbol : String
deriving DecidableEq, Repr

/-- The parsed JSON body of a 2xx `/v1/payments` creation response, as
typed in the source. -/
structure CreateApiResponse where
  paymentId : String
  tatraPayPlusUrl : Option String := none
  bankTransferData : Option BankTransferData := none
  availablePaymentMethods : Option (List AvailableMethod) := none
deriving DecidableEq, Repr

/-- Field `bankTransferInfo` of the public `TatraPayPaymentResponse`. -/
structure BankTransferInfo where
  iban : String
  bic : String
  variableSymbol : String
  amount : ℚ
  currency : String
deriving DecidableEq, Repr

/-- The public `TatraPayPaymentResponse` (the `qrCodeData` field is never
populated by `createPayment` and is omitted). -/
structure TatraPayPaymentResponse where
  paymentId : String
  status : String
  redirectUrl : Option String
  bankTransferInfo : Option BankTransferInfo
  createdAt : String
deriving DecidableEq, Repr

/-- The `bankTransferInfo` record `createPayment` builds from
`response.bankTransferData`:
`amount: request.amount.amount / 100 // Convert back to decimal`. -/
def mkBankTransferInfo (request : TatraPayCreatePaymentRequest)
    (b : BankTransferData) : BankTransferInfo :=
  { iban := b.iban, bic := b.bic, variableSymbol := b.variableSymbol,
    amount := request.amount.amount / 100,
    currency := request.amount.currency }

/-- The tail of `createPayment` after the 2xx response is parsed: the
card-payment validation (`if (request.paymentMethod === 'CARD_PAY' &&
!response.tatraPayPlusUrl) ...`) followed by construction of the returned
`TatraPayPaymentResponse`.  `now` stands for `new Date().toISOString()`. -/
def finishCreatePayment (request : TatraPayCreatePaymentRequest)
    (response : CreateApiResponse) (now : String) :
    Except String TatraPayPaymentResponse :=
  if request.paymentMethod = .CARD_PAY ∧ jsTruthy response.tatraPayPlusUrl = false then
    match (response.availablePaymentMethods.getD []).find?
        (fun m => m.paymentMethod == "CARD_PAY") with
    | some cardMethod =>
      if cardMethod.isAvailable = false then
        .error ("TatraPay: " ++
          jsOrElse cardMethod.reasonCodeMethodAvailabilityDescription
            "Card payment not available")
      else .error "TatraPay: No redirect URL returned for card payment"
    | none => .error "TatraPay: No redirect URL returned for card payment"
  else
    .ok { paymentId := response.paymentId
          status := "RCVD"
          redirectUrl := response.tatraPayPlusUrl
          bankTransferInfo := response.bankTransferData.map (mkBankTransferInfo request)
          createdAt := now }

/-- Function `createPayment` from `src/lib/tatrapay.ts` with the outcome of the
`apiRequest` call passed in (`.error` is a thrown network/HTTP/parse
failure propagating out; `.ok` is the parsed 2xx body).  The transmitted
JSON body is `apiBody request`. -/
def createPayment (request : TatraPayCreatePaymentRequest)
    (apiOutcome : Except String CreateApiResponse) (now : String) :
    Except String TatraPayPaymentResponse :=
  match apiOutcome with
  | .error e => .error e
  | .ok response => finishCreatePayment request response now

/-! ### Callback route handler (`src/app/api/payment/callback/route.ts`) -/

/-- The handler's observable HTTP response: a 302 redirect. -/
inductive HandlerResponse where
  | redirect (url : String)
deriving DecidableEq, Repr

/-- Function `redirectToResult` from the callback route:
`` `${baseUrl}/payment/${status}?${params.toString()}` `` where `params`
holds `message` and, when a truthy `orderId` was passed, `orderId`. -/
def redirectToResult (baseUrl : String) (status : String) (message : String)
    (orderId : Option String) : HandlerResponse :=
  let params := ("message", message) ::
    (match orderId with
     | some oid => if oid = "" then [] else [("orderId", oid)]
     | none => [])
  .redirect (baseUrl ++ "/payment/" ++ status ++ "?" ++ serializeParams params)

/-- The callback route's `GET` handler.  Modelled from the spec: the
order→payment-id database lookup is an explicit TODO in the source (the
shipped code uses the placeholder string `'YOUR_STORED_PAYMENT_ID'`), and
the spec directs modelling it as an abstract lookup capability — it is
the `lookupPaymentId` argument here, with the source's placeholder guard
kept verbatim.  `fetchStatus` is the outcome of `getPaymentStatus` for a
given payment id (`.error` = the call threw, caught by the handler's
`try/catch`; `.ok` = the reported status string).  Returns the redirect
together with the list of payment ids for which a gateway status call
(and hence any token fetch) was performed. -/
def GET (baseUrl : String) (orderId : Option String)
    (lookupPaymentId : Option String)
    (fetchStatus : String → Except String String) :
    HandlerResponse × List String :=
  match orderId with
  | none => (redirectToResult baseUrl "error" "Missing order ID" none, [])
  | some oid =>
    if oid = "" then
      (redirectToResult baseUrl "error" "Missing order ID" none, [])
    else
      match lookupPaymentId with
      | none => (redirectToResult baseUrl "error" "Payment not found" none, [])
      | some pid =>
        if pid = "" ∨ pid = "YOUR_STORED_PAYMENT_ID" then
          (redirectToResult baseUrl "error" "Payment not found" none, [])
        else
          match fetchStatus pid with
          | .error _ =>
            (redirectToResult baseUrl "error" "Error verifying payment" none, [pid])
          | .ok st =>
            if isPaymentSuccessful st then
              (redirectToResult baseUrl "success" "Payment successful" none, [pid])
            else if isPaymentFailed st then
              (redirectToResult baseUrl "failed" "Payment was declined" (some oid), [pid])
            else
              (redirectToResult baseUrl "pending" "Awaiting payment confirmation" none, [pid])

end TatraPay

namespace TatraPay

/-! ### Concrete inputs used by the witnesses and counterexamples -/

/-- A fixed `new Date().toISOString()` value. -/
def t0 : String := "2024-01-01T00:00:00.000Z"

/-- A card-payment creation request. -/
def cardReq : TatraPayCreatePaymentRequest :=
  { paymentMethod := .CARD_PAY
    amount := { amount := 7900, currency := "EUR" }
    merchantReference := "ORDER-123"
    customer := some { firstName := "John", lastName := "Doe", email := "john@example.com" }
    returnUrl := "https://example.com/api/payment/callback?orderId=123"
    customerIpAddress := "1.2.3.4" }

/-- A 2xx creation response carrying a redirect URL. -/
def cardResp : CreateApiResponse :=
  { paymentId := "pay-1", tatraPayPlusUrl := some "https://pay.example/redirect" }

/-- The payment response `createPayment` builds for `cardReq`/`cardResp`. -/
def cardPaymentOk : TatraPayPaymentResponse :=
  { paymentId := "pay-1", status := "RCVD",
    redirectUrl := some "https://pay.example/redirect",
    bankTransferInfo := none, createdAt := t0 }

/-- A 2xx creation response with no redirect URL and no bank-transfer data. -/
def respEmpty : CreateApiResponse := { paymentId := "pay-2" }

/-- A bank-transfer creation request whose amount (10000 minor units) is
left unchanged only if the response really used minor units. -/
def bankReqNoData : TatraPayCreatePaymentRequest :=
  { paymentMethod := .BANK_TRANSFER
    amount := { amount := 10000, currency := "EUR" }
    merchantReference := "ORDER-77"
    returnUrl := "https://example.com/api/payment/callback?orderId=77"
    customerIpAddress := "1.2.3.4" }

/-- A bank-transfer request over 150 minor units (1.50 EUR). -/
def bankReq150 : TatraPayCreatePaymentRequest :=
  { paymentMethod := .BANK_TRANSFER
    amount := { amount := 150, currency := "EUR" }
    merchantReference := "ORDER-150"
    returnUrl := "https://example.com/api/payment/callback?orderId=150"
    customerIpAddress := "1.2.3.4" }

/-- Bank-transfer data as the gateway returns it (no amount field exists
on the wire). -/
def bankData150 : BankTransferData :=
  { iban := "SK3112000000198742637541", bic := "TATRSKBX", variableSymbol := "150" }

/-- A 2xx creation response carrying bank-transfer data. -/
def bankResp150 : CreateApiResponse :=
  { paymentId := "pay-150", bankTransferData := some bankData150 }

/-- The `bankTransferInfo` block `createPayment` reports for `bankReq150`. -/
def bankInfo150 : BankTransferInfo :=
  { iban := "SK3112000000198742637541", bic := "TATRSKBX", variableSymbol := "150",
    amount := 150 / 100, currency := "EUR" }

/-- The payment response `createPayment` builds for `bankReq150`/`bankResp150`. -/
def bankPayment150 : TatraPayPaymentResponse :=
  { paymentId := "pay-150", status := "RCVD", redirectUrl := none,
    bankTransferInfo := some bankInfo150, createdAt := t0 }

/-- A customer whose full name holds diacritics and punctuation. -/
def janCustomer : TatraPayCustomer :=
  { firstName := "Ján", lastName := "Čierny!!", email := "jan@example.com" }

/-- Token-endpoint JSON body used by witnesses. -/
def tokenDataEx : TokenData :=
  { access_token := "tok-abc", token_type := "Bearer", expires_in := 3600,
    scope := "TATRAPAYPLUS" }

/-- Boolean substring test on character lists, used to state that one
string does not occur inside another. -/
def listContainsSub (needle hay : List Char) : Bool :=
  (List.range (hay.length + 1)).any (fun i => needle.isPrefixOf (hay.drop i))

/-- Associativity of string concatenation. -/
theorem string_append_assoc (a b c : String) : a ++ b ++ c = a ++ (b ++ c) :=
  String.ext (by simp)

end TatraPay

namespace TatraPay

/-- C6: every status in the success set {ACCC, ACSC, ACSP, ACCP, ACTC, ACWC,
ACWP, ACFC} classifies as successful, not failed, and maps to the internal
status `completed`; every status outside the success set and outside the
failed set {RJCT, CANC} — including unrecognized codes — maps to `pending`,
so `mapToInternalStatus` is total and never fails. -/
theorem claim_C6 :
    (∀ s ∈ successCodes, isPaymentSuccessful s = true ∧ isPaymentFailed s = false ∧
      mapToInternalStatus s = .completed) ∧
    (∀ s : String, s ∉ successCodes → s ∉ failedCodes →
      mapToInternalStatus s = .pending) := by
  constructor
  · decide
  · intro s hs hf
    simp [mapToInternalStatus, isPaymentSuccessful, isPaymentFailed, List.contains, hs, hf]

theorem claim_C6_witness :
    (isPaymentSuccessful "ACSC" = true ∧ isPaymentFailed "ACSC" = false ∧
      mapToInternalStatus "ACSC" = .completed) ∧
    mapToInternalStatus "OK" = .pending :=
  ⟨claim_C6.1 "ACSC" (by decide), claim_C6.2 "OK" (by decide) (by decide)⟩

/-- C8: the merchant reference `createPayment` transmits is the caller's
merchant reference with every whitespace character removed (and nothing
else changed: the non-whitespace characters survive in order); in
particular the input "ORDER 123 A" is transmitted as "ORDER123A". -/
theorem claim_C8 (request : TatraPayCreatePaymentRequest) :
    (apiBody request).merchantReference.data =
      request.merchantReference.data.filter (fun c => !jsWhitespace c) ∧
    ((apiBody request).merchantReference.data.all (fun c => !jsWhitespace c)) = true ∧
    (apiBody { cardReq with merchantReference := "ORDER 123 A" }).merchantReference =
      "ORDER123A" := by
  refine ⟨rfl, ?_, by decide⟩
  simp [apiBody, stripJsWhitespace, List.all_eq_true, List.mem_filter]

end TatraPay

namespace TatraPay

/-- C4: for every CARD_PAY `createPayment` call, the transmitted
`cardDetail.cardHolder` is the customer's full name trimmed to 45
characters and restricted to the class `[A-Za-z0-9 .@_-]`; the result
always satisfies the whitelist and the 45-character bound, the literal
"Customer" is used when sanitization empties the string or no customer is
given, and the input full name "Ján Čierny!!" sanitizes to "Jn ierny". -/
theorem claim_C4 (request : TatraPayCreatePaymentRequest)
    (h : request.paymentMethod = .CARD_PAY) :
    (apiBody request).cardDetail =
      some (sanitizeCardHolder (customerFullName request.customer)) ∧
    (∀ s : String, ((sanitizeCardHolder s).data.all cardHolderAllowed) = true ∧
      (sanitizeCardHolder s).length ≤ 45) ∧
    (∀ s : String, s.data.filter cardHolderAllowed = [] →
      sanitizeCardHolder s = "Customer") ∧
    customerFullName none = "Customer" ∧
    sanitizeCardHolder (customerFullName (some janCustomer)) = "Jn ierny" := by
  refine ⟨by simp [apiBody, h], ?_, ?_, rfl, by decide⟩
  · intro s
    constructor
    · simp only [sanitizeCardHolder, jsTake]
      split
      · decide
      · simp only [List.all_eq_true]
        intro c hc
        exact List.of_mem_filter (List.mem_of_mem_take hc)
    · simp only [sanitizeCardHolder, jsTake]
      split
      · decide
      · simp only [String.length, List.length_take]
        exact min_le_left _ _
  · intro s hs
    simp only [sanitizeCardHolder, jsTake, hs]
    rfl

theorem claim_C4_witness :
    (apiBody cardReq).cardDetail =
      some (sanitizeCardHolder (customerFullName cardReq.customer)) ∧
    sanitizeCardHolder (customerFullName (some janCustomer)) = "Jn ierny" :=
  ⟨(claim_C4 cardReq rfl).1, (claim_C4 cardReq rfl).2.2.2.2⟩

end TatraPay

namespace TatraPay

/-- C10: every successful `createPayment` call returns `status = "RCVD"`
and `createdAt` equal to the freshly generated timestamp, regardless of
what the gateway's creation response contained. -/
theorem claim_C10 (request : TatraPayCreatePaymentRequest)
    (apiOutcome : Except String CreateApiResponse) (now : String)
    (p : TatraPayPaymentResponse)
    (h : createPayment request apiOutcome now = .ok p) :
    p.status = "RCVD" ∧ p.createdAt = now := by
  match apiOutcome with
  | .error e => simp [createPayment] at h
  | .ok response =>
    simp only [createPayment, finishCreatePayment] at h
    split at h
    · split at h
      · split at h <;> exact Except.noConfusion h
      · exact Except.noConfusion h
    · cases h
      exact ⟨rfl, rfl⟩

theorem claim_C10_witness : cardPaymentOk.status = "RCVD" ∧ cardPaymentOk.createdAt = t0 :=
  claim_C10 cardReq (.ok cardResp) t0 cardPaymentOk rfl

/-- C5: if a cached token exists and the current time is strictly before
its stored expiry minus 60000 ms, `getAccessToken` returns the cached
access token unchanged with no network call; otherwise it performs
exactly one token-endpoint exchange, stores the returned token with
expiry = now + expires_in * 1000, and returns the new token. -/
theorem claim_C5 (cachedToken : Option TatraPayToken) (nowAtCheck nowAtStore : Int)
    (d : TokenData) :
    (∀ t fetchOutcome, cachedToken = some t → nowAtCheck < t.expiresAt - 60000 →
      getAccessToken cachedToken nowAtCheck nowAtStore fetchOutcome =
        (.ok t.access_token, some t, 0)) ∧
    ((cachedToken = none ∨
        ∃ t, cachedToken = some t ∧ t.expiresAt - 60000 ≤ nowAtCheck) →
      getAccessToken cachedToken nowAtCheck nowAtStore (.ok d) =
        (.ok d.access_token,
          some { access_token := d.access_token, token_type := d.token_type,
                 expires_in := d.expires_in, scope := d.scope,
                 expiresAt := nowAtStore + d.expires_in * 1000 }, 1)) := by
  constructor
  · rintro t fetchOutcome rfl hlt
    simp [getAccessToken, hlt]
  · rintro (rfl | ⟨t, rfl, hle⟩)
    · rfl
    · simp [getAccessToken, not_lt.mpr hle, refreshAccessToken]

theorem claim_C5_witness :
    getAccessToken none 0 5 (.ok tokenDataEx) =
      (.ok tokenDataEx.access_token,
        some { access_token := tokenDataEx.access_token,
               token_type := tokenDataEx.token_type,
               expires_in := tokenDataEx.expires_in, scope := tokenDataEx.scope,
               expiresAt := 5 + tokenDataEx.expires_in * 1000 }, 1) :=
  (claim_C5 none 0 5 tokenDataEx).2 (Or.inl rfl)

/-- C7 counterexample: at a concrete non-success token response (HTTP
401, body "invalid_client: bad credentials"), the error `getAccessToken`
fails with is "TatraPay authentication failed: 401" — the non-empty
response body does not occur anywhere in the error value, refuting the
claim that the body is surfaced in the error. -/
theorem claim_C7_counterexample :
    getAccessToken none 0 0 (.httpError 401 "invalid_client: bad credentials") =
      (.error "TatraPay authentication failed: 401", none, 1) ∧
    "invalid_client: bad credentials" ≠ "" ∧
    listContainsSub "invalid_client: bad credentials".data
      "TatraPay authentication failed: 401".data = false := by
  refine ⟨rfl, by decide, by decide⟩

/-- C7 amended: when the token endpoint returns a non-success HTTP status
and no valid cached token exists, `getAccessToken` fails with an
authentication error that surfaces the HTTP status code; the response
body is only written to the console log, not included in the error. -/
theorem claim_C7_amended (cachedToken : Option TatraPayToken)
    (nowAtCheck nowAtStore : Int) (status : Nat) (body : String)
    (hmiss : cachedToken = none ∨
      ∃ t, cachedToken = some t ∧ t.expiresAt - 60000 ≤ nowAtCheck) :
    getAccessToken cachedToken nowAtCheck nowAtStore (.httpError status body) =
      (.error ("TatraPay authentication failed: " ++ toString status),
        cachedToken, 1) := by
  rcases hmiss with rfl | ⟨t, rfl, hle⟩
  · rfl
  · simp [getAccessToken, not_lt.mpr hle, refreshAccessToken]

theorem claim_C7_amended_witness :
    getAccessToken none 0 0 (.httpError 500 "server exploded") =
      (.error ("TatraPay authentication failed: " ++ toString 500), none, 1) :=
  claim_C7_amended none 0 0 500 "server exploded" (Or.inl rfl)

end TatraPay

namespace TatraPay

/-- C1 counterexample: a BANK_TRANSFER `createPayment` call whose gateway
response lacks `bankTransferData` does not fail — it returns a success
response with `bankTransferInfo = none`, refuting the claim that absence
of the payload expected for the requested method is a hard error. -/
theorem claim_C1_counterexample :
    createPayment bankReqNoData (.ok respEmpty) t0 =
      .ok { paymentId := "pay-2", status := "RCVD", redirectUrl := none,
            bankTransferInfo := none, createdAt := t0 } := rfl

/-- C1 amended: for CARD_PAY, a missing (or empty) redirect URL in the
gateway response makes `createPayment` fail, and any success response
carries a truthy redirect URL; for BANK_TRANSFER, `createPayment` always
succeeds, carrying bank-transfer instructions only when the gateway
supplied `bankTransferData` — their absence yields a success with
`bankTransferInfo = none`, not an error. -/
theorem claim_C1_amended (request : TatraPayCreatePaymentRequest)
    (response : CreateApiResponse) (now : String) :
    (request.paymentMethod = .CARD_PAY → jsTruthy response.tatraPayPlusUrl = false →
      (createPayment request (.ok response) now).isOk = false) ∧
    (request.paymentMethod = .CARD_PAY →
      ∀ p, createPayment request (.ok response) now = .ok p →
        jsTruthy p.redirectUrl = true) ∧
    (request.paymentMethod = .BANK_TRANSFER →
      createPayment request (.ok response) now =
        .ok { paymentId := response.paymentId, status := "RCVD",
              redirectUrl := response.tatraPayPlusUrl,
              bankTransferInfo := response.bankTransferData.map (mkBankTransferInfo request),
              createdAt := now }) := by
  refine ⟨?_, ?_, ?_⟩
  · intro hm hu
    simp only [createPayment, finishCreatePayment, hm, hu]
    simp only [and_self, if_true, true_and]
    split
    · split <;> rfl
    · rfl
  · intro hm p hp
    simp only [createPayment, finishCreatePayment] at hp
    split at hp
    · split at hp
      · split at hp <;> exact Except.noConfusion hp
      · exact Except.noConfusion hp
    · rename_i hcond
      cases hp
      rw [not_and_or] at hcond
      rcases hcond with hc | hc
      · exact absurd hm hc
      · simpa using hc
  · intro hm
    simp [createPayment, finishCreatePayment, hm]

theorem claim_C1_amended_witness :
    (createPayment cardReq (.ok respEmpty) t0).isOk = false :=
  (claim_C1_amended cardReq respEmpty t0).1 rfl rfl

/-- C2 counterexample: for a bank-transfer request over 150 minor units,
the reported `bankTransferInfo.amount` is 3/2 — a non-integer decimal
major-unit value, not the integer minor-unit amount 150 — refuting the
claim that response amounts are integer minor units converted back from
the gateway's decimal. -/
theorem claim_C2_counterexample :
    createPayment bankReq150 (.ok bankResp150) t0 = .ok bankPayment150 ∧
    bankInfo150.amount = 3 / 2 ∧ bankInfo150.amount.den ≠ 1 ∧
    bankInfo150.amount ≠ bankReq150.amount.amount := by
  refine ⟨rfl, ?_, ?_, ?_⟩
  · show (150 : ℚ) / 100 = 3 / 2
    norm_num
  · show ((150 : ℚ) / 100).den ≠ 1
    norm_num
  · show (150 : ℚ) / 100 ≠ 150
    norm_num

/-- C2 amended: whenever `createPayment` succeeds with a
`bankTransferInfo` block, its `amount` is the caller's integer minor-unit
amount divided by 100 (a decimal major-unit value) and its currency is
the request currency; no gateway-reported amount is involved — the
gateway's `bankTransferData` carries no amount field at all. -/
theorem claim_C2_amended (request : TatraPayCreatePaymentRequest)
    (response : CreateApiResponse) (now : String)
    (p : TatraPayPaymentResponse) (info : BankTransferInfo)
    (hp : createPayment request (.ok response) now = .ok p)
    (hi : p.bankTransferInfo = some info) :
    info.amount = request.amount.amount / 100 ∧
    info.currency = request.amount.currency := by
  simp only [createPayment, finishCreatePayment] at hp
  split at hp
  · split at hp
    · split at hp <;> exact Except.noConfusion hp
    · exact Except.noConfusion hp
  · cases hp
    match hb : response.bankTransferData with
    | none => rw [hb] at hi; simp at hi
    | some b =>
      rw [hb] at hi
      simp only [Option.map_some, Option.some_inj] at hi
      cases hi
      exact ⟨rfl, rfl⟩

theorem claim_C2_amended_witness :
    bankInfo150.amount = bankReq150.amount.amount / 100 ∧
    bankInfo150.currency = bankReq150.amount.currency :=
  claim_C2_amended bankReq150 bankResp150 t0 bankPayment150 bankInfo150 rfl rfl

end TatraPay

namespace TatraPay

/-- C9: a callback request without an `orderId` query parameter is
answered with a redirect to the generic error outcome page, and the list
of performed gateway status calls (the only path that could trigger a
token fetch or status GET) is empty. -/
theorem claim_C9 (baseUrl : String) (lookupPaymentId : Option String)
    (fetchStatus : String → Except String String) :
    GET baseUrl none lookupPaymentId fetchStatus =
      (.redirect (baseUrl ++ "/payment/error?message=Missing+order+ID"), []) := by
  show (redirectToResult baseUrl "error" "Missing order ID" none, []) = _
  refine Prod.ext ?_ rfl
  show HandlerResponse.redirect _ = _
  refine congrArg HandlerResponse.redirect ?_
  apply String.ext
  simp only [String.data_append, List.append_assoc]
  congr 1

/-- C3: when the callback handler runs with an order id whose stored
payment id is real (non-empty and not the placeholder) and whose payment
status resolves to RJCT, it redirects to the failed outcome page, whose
URL carries the order id as a query parameter. -/
theorem claim_C3 (baseUrl orderId pid : String)
    (fetchStatus : String → Except String String)
    (hOid : orderId ≠ "") (hPid : pid ≠ "") (hPid2 : pid ≠ "YOUR_STORED_PAYMENT_ID")
    (hFetch : fetchStatus pid = .ok "RJCT") :
    GET baseUrl (some orderId) (some pid) fetchStatus =
      (.redirect (baseUrl ++ "/payment/failed?message=Payment+was+declined&orderId=" ++
        formEncode orderId), [pid]) := by
  simp only [GET, hOid, hPid, hPid2, hFetch, if_neg, or_self, if_false,
    show isPaymentSuccessful "RJCT" = false from rfl,
    show isPaymentFailed "RJCT" = true from rfl, Bool.false_eq_true, ite_false, ite_true]
  refine Prod.ext ?_ rfl
  simp only [redirectToResult, hOid, if_false]
  refine congrArg HandlerResponse.redirect ?_
  apply String.ext
  simp only [String.data_append, List.append_assoc]
  congr 1

theorem claim_C3_witness :
    GET "http://localhost:3000" (some "ORDER-1") (some "pay-1")
        (fun _ => .ok "RJCT") =
      (.redirect ("http://localhost:3000" ++
        "/payment/failed?message=Payment+was+declined&orderId=" ++
        formEncode "ORDER-1"), ["pay-1"]) :=
  claim_C3 "http://localhost:3000" "ORDER-1" "pay-1" (fun _ => .ok "RJCT")
    (by decide) (by decide) (by decide) rfl

end TatraPay
